import Mathlib

/-
Verification of the VAQI assistant core: the intent-extraction pipeline
(sanitizer, repair, normalizer, schema validation, failure absorption), the
recipient resolver, the blob persistence gateway and the debounced/backoff
memory-commit scheduler.  Every definition is a shallow embedding of the
corresponding TypeScript function; times are milliseconds as natural numbers,
JavaScript string falsiness is modelled explicitly via jsTruthy.
-/

namespace VAQI

/-! ## Data model (types module)

Shallow embedding of the repository wire types: ChatMessage, ActivityLogEntry,
Contact, WalletMemory.  `blobId` is the remote pointer, absent until the first
successful commit. -/

inductive Role where
  | user
  | assistant
deriving DecidableEq, Repr

structure ChatMessage where
  role : Role
  content : String
  timestamp : Nat
deriving DecidableEq, Repr

structure ActivityLogEntry where
  type : String
  digest : String
  amount : Option String := none
  recipient : Option String := none
  recipients : Option (List String) := none
  timestamp : Nat
  status : String
deriving DecidableEq, Repr

structure Contact where
  name : String
  address : String
deriving DecidableEq, Repr

structure WalletMemory where
  walletAddress : String
  chatHistory : List ChatMessage
  aiSummary : String
  activityLogs : List ActivityLogEntry
  contacts : List Contact
  lastUpdated : Nat
  blobId : Option String := none
deriving DecidableEq, Repr

/-- JS String.prototype.startsWith, embedded over character lists (the
built-in String.startsWith is byte-position based and not kernel-reducible). -/
def jsStartsWith (s pre : String) : Bool :=
  s.toList.take pre.toList.length = pre.toList

/-- JS String.prototype.toLowerCase, embedded over character lists. -/
def jsToLower (s : String) : String :=
  String.mk (s.toList.map Char.toLower)

/-- JS String.prototype.trim, embedded over character lists: drop leading
and trailing whitespace. -/
def jsTrim (s : String) : String :=
  String.mk (((s.toList.dropWhile Char.isWhitespace).reverse.dropWhile
    Char.isWhitespace).reverse)

/-- JS String.prototype.endsWith, embedded over character lists. -/
def jsEndsWith (s suf : String) : Bool :=
  (s.toList.reverse.take suf.toList.length).reverse = suf.toList

/-- JavaScript truthiness of an optional string: null/undefined and the empty
string are falsy; `jsTruthy o` is the value when truthy, none otherwise. -/
def jsTruthy (o : Option String) : Option String :=
  match o with
  | none => none
  | some s => if s = "" then none else some s

/-! ## Canonical schema (zod schemas module)

The validated TransactionResponse shape.  zod strips unknown keys, so the
validated params carry no legacy destination field. -/

inductive RType where
  | CHAT
  | TRANSACTION
deriving DecidableEq, Repr

inductive ActionType where
  | TRANSFER
  | BATCH_TRANSFER
  | SWAP
  | STAKE
  | DEFI_SUPPLY
  | NONE
deriving DecidableEq, Repr

structure TransactionParams where
  amount : Option String := none
  token : Option String := none
  recipient : Option String := none
  recipients : Option (List String) := none
  target_token : Option String := none
  isMax : Option Bool := none
deriving DecidableEq, Repr

structure TransactionData where
  summary : String
  action_type : ActionType
  params : TransactionParams
deriving DecidableEq, Repr

structure TransactionResponse where
  type : RType
  data : TransactionData
deriving DecidableEq, Repr

/-! Wire shape of a parsed (pre-validation) payload.  Fields are optional
because the generated JSON may omit them; `to_address` is the legacy
destination field the normalizer rewrites.  A `none` params models the
JSON null / absent object. -/

structure RawParams where
  amount : Option String := none
  token : Option String := none
  recipient : Option String := none
  to_address : Option String := none
  recipients : Option (List String) := none
  target_token : Option String := none
  isMax : Option Bool := none
deriving DecidableEq, Repr

structure RawData where
  summary : Option String := none
  action_type : Option String := none
  params : Option RawParams := none
deriving DecidableEq, Repr

structure RawResponse where
  type : Option String := none
  data : Option RawData := none
deriving DecidableEq, Repr

def parseRType : String → Option RType
  | "CHAT" => some .CHAT
  | "TRANSACTION" => some .TRANSACTION
  | _ => none

def parseActionType : String → Option ActionType
  | "TRANSFER" => some .TRANSFER
  | "BATCH_TRANSFER" => some .BATCH_TRANSFER
  | "SWAP" => some .SWAP
  | "STAKE" => some .STAKE
  | "DEFI_SUPPLY" => some .DEFI_SUPPLY
  | "NONE" => some .NONE
  | _ => none

/-- TransactionResponseSchema.parse: strict on the two enums, requires data,
summary and params to be present; unknown keys (such as the legacy
to_address) are stripped by zod and hence absent from the result type. -/
def validateResponse (r : RawResponse) : Option TransactionResponse :=
  match r.type, r.data with
  | some ty, some d =>
    match parseRType ty, d.summary, d.action_type, d.params with
    | some rty, some summ, some act, some ps =>
      match parseActionType act with
      | some a =>
        some ⟨rty, ⟨summ, a,
          ⟨ps.amount, ps.token, ps.recipient, ps.recipients, ps.target_token, ps.isMax⟩⟩⟩
      | none => none
    | _, _, _, _ => none
  | _, _ => none

/-! ## Output sanitizer (cleanJsonOutput) and structural repair
(tryFixIncompleteJSON), embedded over character lists. -/

/-- Index of the first occurrence of a character (String.indexOf). -/
def firstIdxOf? (l : List Char) (c : Char) : Option Nat :=
  l.findIdx? (· = c)

/-- Index of the last occurrence of a character (String.lastIndexOf). -/
def lastIdxOf? (l : List Char) (c : Char) : Option Nat :=
  (firstIdxOf? l.reverse c).map (fun k => l.length - 1 - k)

/-- The seven fence-marker characters, lowercased. -/
def jsonFenceChars : List Char := ['`', '`', '`', 'j', 's', 'o', 'n']

/-- Remove every occurrence of a token, scanning left to right without
rescanning replaced text, as a /g regex replace does; when `lower` is set the
probe is lowercased first (the /i flag).  Structural recursion on a fuel
that starts at the list length (each step consumes at least one element). -/
def stripTokenAux (tok : List Char) (lower : Bool) : Nat → List Char → List Char
  | 0, l => l
  | fuel + 1, l =>
    match l with
    | [] => []
    | c :: rest =>
      let probe := if lower then (l.take tok.length).map Char.toLower else l.take tok.length
      if probe = tok then stripTokenAux tok lower fuel (l.drop tok.length)
      else c :: stripTokenAux tok lower fuel rest

/-- Remove every case-insensitive occurrence of the json fence marker
(the /```json/gi replace). -/
def stripJsonFenceCI (l : List Char) : List Char :=
  stripTokenAux jsonFenceChars true l.length l

/-- Remove every occurrence of the plain triple-backtick marker
(the /```/g replace). -/
def stripBacktickFence (l : List Char) : List Char :=
  stripTokenAux ['`', '`', '`'] false l.length l

/-- The `cleaned` value of cleanJsonOutput right before the slicing step:
fence markers removed (the case-insensitive json marker first, then every
remaining plain marker) and whitespace trimmed (the source trims twice, a
no-op repetition kept for fidelity). -/
def preSliceText (text : String) : String :=
  jsTrim (jsTrim (String.mk (stripBacktickFence (stripJsonFenceCI text.toList))))

/-- cleanJsonOutput: strip the fence markers, trim, then slice to the span
from the first opening brace to the last closing brace when both exist in
order. -/
def cleanJsonOutput (text : String) : String :=
  match firstIdxOf? (preSliceText text).toList '{', lastIdxOf? (preSliceText text).toList '}' with
  | some firstBrace, some lastBrace =>
    if lastBrace > firstBrace then
      String.mk (((preSliceText text).toList.drop firstBrace).take (lastBrace + 1 - firstBrace))
    else preSliceText text
  | _, _ => preSliceText text

/-- Number of occurrences of a character in a string. -/
def countChar (s : String) (c : Char) : Nat :=
  s.toList.count c

/-- tryFixIncompleteJSON: balance unmatched opening braces (trimming one
trailing dangling comma or quote first) and close an odd trailing quote when
the text does not already end with one. -/
def tryFixIncompleteJSON (jsonStr : String) : String :=
  let fixed := jsTrim jsonStr
  let openBraces := countChar fixed '{'
  let closeBraces := countChar fixed '}'
  let fixed :=
    if openBraces > closeBraces then
      let missing := openBraces - closeBraces
      let f := if jsEndsWith fixed "\"" || jsEndsWith fixed "," then fixed.dropRight 1 else fixed
      f ++ "\n" ++ String.mk (List.replicate missing '}')
    else fixed
  let openQuotes := countChar fixed '"'
  if openQuotes % 2 ≠ 0 then
    if ¬ jsEndsWith fixed "\"" then fixed ++ "\"" else fixed
  else fixed

/-! Claim-side descriptions of the repair algorithm, written from the spec
sentence for comparison with the embedded tryFixIncompleteJSON. -/

/-- Trim one trailing dangling comma or quote. -/
def trimDanglingTail (fixed : String) : String :=
  if jsEndsWith fixed "\"" || jsEndsWith fixed "," then fixed.dropRight 1 else fixed

/-- When the opening braces outnumber the closing ones, trim a dangling
tail character and append exactly the missing number of closing braces. -/
def balanceBraces (fixed : String) : String :=
  if countChar fixed '{' > countChar fixed '}' then
    trimDanglingTail fixed ++ "\n"
      ++ String.mk (List.replicate (countChar fixed '{' - countChar fixed '}') '}')
  else fixed

/-- When the quote count is odd, append one closing quote — unless the text
already ends with a quote (the amendment the code forces). -/
def closeOddQuote (fixed : String) : String :=
  if countChar fixed '"' % 2 = 1 ∧ ¬ jsEndsWith fixed "\"" then fixed ++ "\"" else fixed

/-! ## Intent extractor (analyzeTransactionIntent and helpers)

The generative backend, the JSON.parse primitive and the presence of the API
key are environment parameters; everything else (sanitation, repair,
normalization, validation, failure classification) is embedded from the
source.  Prompt construction does not influence control flow and is omitted;
the outcome oracle is indexed by the attempt number and the model name. -/

/-- Does the message contain any character of the class?  Embeds the
character-class regex tests of getSafeFallbackResponse. -/
def containsAnyChar (s : String) (cls : List Char) : Bool :=
  s.toList.any (fun c => cls.contains c)

def turkishChars : List Char := ['ç', 'ğ', 'ı', 'ö', 'ş', 'ü', 'Ç', 'Ğ', 'I', 'İ', 'Ö', 'Ş', 'Ü']

def spanishChars : List Char := ['ñ', 'á', 'é', 'í', 'ó', 'ú', 'ü', 'Ñ', 'Á', 'É', 'Í', 'Ó', 'Ú', 'Ü']

def frenchChars : List Char :=
  ['à', 'â', 'ä', 'é', 'è', 'ê', 'ë', 'ï', 'î', 'ô', 'ù', 'û', 'ü', 'ÿ', 'ç',
   'À', 'Â', 'Ä', 'É', 'È', 'Ê', 'Ë', 'Ï', 'Î', 'Ô', 'Ù', 'Û', 'Ü', 'Ÿ', 'Ç']

def germanChars : List Char := ['ä', 'ö', 'ü', 'ß', 'Ä', 'Ö', 'Ü']

/-- The empty params object written for every fixed fallback response. -/
def emptyParams : TransactionParams := {}

/-- getSafeFallbackResponse: CHAT/NONE with a locale-matched message chosen
by the diacritic heuristic over the original utterance. -/
def getSafeFallbackResponse (userMessage : String) : TransactionResponse :=
  let fallbackMessage :=
    if containsAnyChar userMessage turkishChars then
      "Teknik bir sorun oluştu ama seni duyuyorum. Lütfen isteğini tekrar edebilir misin?"
    else if containsAnyChar userMessage spanishChars then
      "Ocurrió un problema técnico, pero te escucho. ¿Puedes repetir tu solicitud?"
    else if containsAnyChar userMessage frenchChars then
      "Un problème technique s\x27est produit, mais je vous entends. Pouvez-vous répéter votre demande?"
    else if containsAnyChar userMessage germanChars then
      "Ein technisches Problem ist aufgetreten, aber ich höre Sie. Können Sie Ihre Anfrage wiederholen?"
    else
      "A technical issue occurred, but I can hear you. Could you please repeat your request?"
  ⟨.CHAT, ⟨fallbackMessage, .NONE, emptyParams⟩⟩

/-- Response returned when the API key / client is missing. -/
def apiKeyMissingResponse : TransactionResponse :=
  ⟨.CHAT, ⟨"Sistem Hatası: API Anahtarı eksik. Lütfen terminal loglarını kontrol edin.", .NONE, emptyParams⟩⟩

/-- Response returned on a 429 rate-limit fault. -/
def rateLimitedResponse : TransactionResponse :=
  ⟨.CHAT, ⟨"Sistem şu an yoğun, lütfen birkaç saniye sonra tekrar deneyin.", .NONE, emptyParams⟩⟩

/-- Response produced by the outermost catch for any other fault. -/
def busyResponse : TransactionResponse :=
  ⟨.CHAT, ⟨"Sistem şu an meşgul, lütfen tekrar deneyin.", .NONE, emptyParams⟩⟩

/-- Outcome of one generateContent call: success with the returned text, a
404 model-not-found fault, a 429 rate-limit fault, or any other fault. -/
inductive CallOutcome where
  | success (text : String)
  | notFound
  | rateLimited
  | fault
deriving DecidableEq, Repr

/-- Environment of the extractor: whether the API key is configured, the
outcome of the n-th generative call against a given model, and the JSON.parse
primitive (none models a parse exception). -/
structure ExtractEnv where
  apiConfigured : Bool
  outcome : Nat → String → CallOutcome
  parse : String → Option RawResponse

/-- Normalization applied to the parsed payload before validation: rename a
truthy legacy to_address into recipient deleting the legacy key, then coerce
a null/absent params to the empty object when data is present. -/
def normalizeParsed (r : RawResponse) : RawResponse :=
  let r1 :=
    match r.data with
    | some d =>
      match d.params with
      | some ps =>
        match ps.to_address with
        | some s =>
          if s ≠ "" then
            { r with data := some { d with params := some { ps with recipient := some s, to_address := none } } }
          else r
        | none => r
      | none => r
    | none => r
  match r1.data with
  | some d =>
    if d.params = none then { r1 with data := some { d with params := some {} } } else r1
  | none => r1

/-- Normalize, validate, and fall back to the safe response on validation
failure. -/
def finishParsed (userMessage : String) (p : RawResponse) : TransactionResponse :=
  match validateResponse (normalizeParsed p) with
  | some validated => validated
  | none => getSafeFallbackResponse userMessage

/-- Post-call processing of the generated text: short-output checks, the
sanitizer, two parse attempts around the structural repair, then
normalization and validation; every failure is absorbed into the safe
fallback. -/
def processText (env : ExtractEnv) (userMessage text0 : String) : TransactionResponse :=
  if (jsTrim text0).length < 10 then getSafeFallbackResponse userMessage
  else if (jsTrim (cleanJsonOutput text0)).length < 10 then getSafeFallbackResponse userMessage
  else
    match env.parse (cleanJsonOutput text0) with
    | some parsedData => finishParsed userMessage parsedData
    | none =>
      match env.parse (tryFixIncompleteJSON (cleanJsonOutput text0)) with
      | some parsedData => finishParsed userMessage parsedData
      | none => getSafeFallbackResponse userMessage

def allowedModels : List String := ["gemini-2.5-flash", "gemini-1.5-pro"]

/-- Allow-list validation of the model name. -/
def validModel (modelName : String) : String :=
  if allowedModels.contains modelName then modelName else "gemini-2.5-flash"

/-- analyzeTransactionIntent.  The source recurses into itself on a 404
fault, switching to the other model variant, with no depth bound; `fuel`
makes that recursion well-founded here, and `none` marks the runs on which
the source would still be recursing (it never returns).  `k` counts the
generative calls made so far. -/
def analyzeTransactionIntent (env : ExtractEnv) (userMessage : String) :
    (modelName : String) → (fuel k : Nat) → Option TransactionResponse
  | _, 0, _ => none
  | modelName, fuel + 1, k =>
    let vm := validModel modelName
    if env.apiConfigured = false then some apiKeyMissingResponse
    else
      match env.outcome k vm with
      | .notFound =>
        if vm ≠ "gemini-1.5-pro" then
          analyzeTransactionIntent env userMessage "gemini-1.5-pro" fuel (k + 1)
        else
          analyzeTransactionIntent env userMessage "gemini-2.5-flash" fuel (k + 1)
      | .rateLimited => some rateLimitedResponse
      | .fault => some busyResponse
      | .success text => some (processText env userMessage text)

/-! ## Recipient resolution and the TRANSFER dispatch guard
(ChatInterface.tsx). -/

/-- resolveRecipient: a token starting with 0x is an address, with a
case-insensitive reverse lookup recovering the display name (the source
coerces an empty contact name to null via the || null); otherwise a
case-insensitive forward lookup by name; unresolved yields the empty address
with a null name. -/
def resolveRecipient (contacts : List Contact) (recipient : String) : String × Option String :=
  if jsStartsWith recipient "0x" then
    match contacts.find? (fun c => jsToLower c.address = jsToLower recipient) with
    | some contact => (recipient, jsTruthy (some contact.name))
    | none => (recipient, none)
  else
    match contacts.find? (fun c => jsToLower c.name = jsToLower recipient) with
    | some contact => (contact.address, some contact.name)
    | none => ("", none)

/-- Decision taken by the TRANSFER branch of handleAIResponse: abort on
missing params, abort on an unresolved recipient, otherwise proceed to build
the transaction with the resolved address. -/
inductive TransferOutcome where
  | missingParams
  | unresolved (token : String)
  | build (address : String) (name : Option String) (amount : String)
deriving DecidableEq, Repr

/-- The TRANSFER branch of handleAIResponse up to the point a transaction is
built: JS-falsy amount or recipient aborts, and an empty resolved address
aborts naming the unresolved token.  The validated params carry no legacy
to_address field (zod stripped it), so the source fallback read of to_address
yields undefined here. -/
def handleTransferIntent (contacts : List Contact) (params : TransactionParams) : TransferOutcome :=
  match jsTruthy params.amount, jsTruthy params.recipient with
  | some amount, some recipientInput =>
    let resolved := resolveRecipient contacts recipientInput
    if resolved.1 = "" then .unresolved recipientInput
    else .build resolved.1 resolved.2 amount
  | _, _ => .missingParams

/-! ## Blob persistence gateway (walrus client: uploadToWalrus,
downloadFromWalrus, createEmptyMemory). -/

/-- Outcome of the HTTP exchange as the gateway sees it: `fault` covers the
abort-timeout and any network exception (both reach the catch clause);
`response` carries the status and the parsed body (none when reading or
parsing the body would throw). -/
inductive FetchOutcome (β : Type) where
  | fault
  | response (status : Nat) (body : Option β)

/-- Body of a successful store response: the blobId found under
newlyCreated.blobObject.blobId and/or under alreadyCertified.blobId. -/
structure WalrusUploadResponse where
  newlyCreatedBlobId : Option String := none
  alreadyCertifiedBlobId : Option String := none
deriving DecidableEq, Repr

/-- response.ok of the fetch API: status in [200, 300). -/
def httpOk (status : Nat) : Bool :=
  200 ≤ status ∧ status < 300

/-- uploadToWalrus: null on timeout/fault, null on a non-ok response or an
unreadable body, otherwise the first truthy blobId of the newly-created or
already-certified shapes, null when neither is truthy.  Never raises: every
outcome maps to a value. -/
def uploadToWalrus (r : FetchOutcome WalrusUploadResponse) : Option String :=
  match r with
  | .fault => none
  | .response status body =>
    if ¬ httpOk status then none
    else
      match body with
      | none => none
      | some result =>
        match jsTruthy result.newlyCreatedBlobId with
        | some b => some b
        | none =>
          match jsTruthy result.alreadyCertifiedBlobId with
          | some b => some b
          | none => none

/-- downloadFromWalrus: the 404 not-found branch returns null (absent, not an
error) before the generic non-ok branch; fault/timeout and body-parse failure
also return null. -/
def downloadFromWalrus (r : FetchOutcome WalletMemory) : Option WalletMemory :=
  match r with
  | .fault => none
  | .response status body =>
    if ¬ httpOk status then
      if status = 404 then none else none
    else
      match body with
      | none => none
      | some data => some data

/-- createEmptyMemory; Date.now() is passed explicitly. -/
def createEmptyMemory (walletAddress : String) (now : Nat) : WalletMemory :=
  ⟨walletAddress, [], "", [], [], now, none⟩

/-- The loadMemory effect of useWalletMemory: consult the local pointer
cache, fetch on a truthy cache hit, adopt the snapshot when its
walletAddress matches the connecting identity, otherwise fall back to a
fresh empty aggregate. -/
def loadMemoryModel (address : String) (savedBlobId : Option String)
    (fetch : String → Option WalletMemory) (now : Nat) : WalletMemory :=
  match jsTruthy savedBlobId with
  | some bid =>
    match fetch bid with
    | some walrusMemory =>
      if walrusMemory.walletAddress = address then { walrusMemory with blobId := some bid }
      else createEmptyMemory address now
    | none => createEmptyMemory address now
  | none => createEmptyMemory address now

/-! ## Persistent memory manager scheduler (useWalletMemory)

The hook is embedded as an explicit state machine over wall-clock
milliseconds.  A crucial faithfulness point: scheduleAutoSave is a
useCallback whose closure reads the `memory` binding of the render in which
it was created; an event handler created in render R therefore schedules a
debounce timer whose callback will commit the memory value of render R,
i.e. the aggregate state BEFORE the mutation applied by that same handler.
The model stores that closure value in the timer (`captured`).  The fast
path instead passes the freshly computed `updated` aggregate directly to the
100ms timeout.  A connected account is assumed throughout (the claims only
concern connected sessions). -/

def AUTO_SAVE_DELAY : Nat := 2000

def MAX_CONSECUTIVE_FAILURES : Nat := 3

def BACKOFF_DURATION_MS : Nat := 30000

/-- A pending debounce timeout: when it fires and the closure value it
captured. -/
structure DebounceTimer where
  fireAt : Nat
  captured : Option WalletMemory
deriving DecidableEq, Repr

/-- Environment of the scheduler: the result of the n-th upload attempt
(the blobId on success, none on timeout/failure). -/
structure SaveEnv where
  uploadResult : Nat → Option String

/-- Scheduler state: the React memory state, the single debounce timeout
slot (saveTimeoutRef; scheduling overwrites it, modelling clearTimeout), the
un-cancellable fast-path timeouts in creation order, the pendingChanges,
consecutive-failure and backoff-deadline refs, and an observation log of
every upload attempt (time and payload) together with its count. -/
structure MemState where
  memory : Option WalletMemory
  debounceTimer : Option DebounceTimer := none
  fastTimers : List (Nat × WalletMemory) := []
  pendingChanges : Bool := false
  consecutiveFailures : Nat := 0
  backoffUntil : Nat := 0
  uploadCount : Nat := 0
  uploads : List (Nat × WalletMemory) := []

/-- saveToWalrusInternal: skip entirely inside the backoff window; otherwise
attempt the upload of the snapshot stamped with the current time; success
resets the failure counter and the backoff deadline and writes the blobId
into the live aggregate; failure increments the counter and, at the
threshold, opens a 30s backoff window. -/
def saveToWalrusInternal (env : SaveEnv) (s : MemState) (now : Nat) (memoryToSave : WalletMemory) :
    MemState :=
  if now < s.backoffUntil then s
  else
    let payload := { memoryToSave with lastUpdated := now }
    let n := s.uploadCount
    let s1 := { s with uploadCount := n + 1, uploads := s.uploads ++ [(now, payload)] }
    match env.uploadResult n with
    | some blobId =>
      { s1 with
        consecutiveFailures := 0
        backoffUntil := 0
        memory := s1.memory.map (fun prev => { prev with blobId := some blobId, lastUpdated := now }) }
    | none =>
      let f := s1.consecutiveFailures + 1
      { s1 with
        consecutiveFailures := f
        backoffUntil := if f ≥ MAX_CONSECUTIVE_FAILURES then now + BACKOFF_DURATION_MS else s1.backoffUntil }

/-- scheduleAutoSave invoked at time t from a handler of the current render:
clear the previous debounce timeout, mark pending changes, and arm a new
timeout whose closure captured the render-scope memory value
(`renderMemory`, the state before the handler mutated it). -/
def scheduleAutoSave (s : MemState) (t : Nat) (renderMemory : Option WalletMemory) : MemState :=
  { s with pendingChanges := true, debounceTimer := some ⟨t + AUTO_SAVE_DELAY, renderMemory⟩ }

/-- addChatMessage at time t: append to chatHistory; with no truthy blobId
yet, arm the 100ms fast-path timeout carrying the updated aggregate,
otherwise debounce (the debounce closure sees the pre-mutation memory). -/
def addChatMessage (s : MemState) (t : Nat) (message : ChatMessage) : MemState :=
  match s.memory with
  | none => s
  | some prev =>
    let updated := { prev with chatHistory := prev.chatHistory ++ [message], lastUpdated := t }
    if jsTruthy prev.blobId = none then
      { s with memory := some updated, fastTimers := s.fastTimers ++ [(t + 100, updated)] }
    else
      scheduleAutoSave { s with memory := some updated } t s.memory

/-- addActivityLog at time t: same scheduling as addChatMessage. -/
def addActivityLog (s : MemState) (t : Nat) (activity : ActivityLogEntry) : MemState :=
  match s.memory with
  | none => s
  | some prev =>
    let updated := { prev with activityLogs := prev.activityLogs ++ [activity], lastUpdated := t }
    if jsTruthy prev.blobId = none then
      { s with memory := some updated, fastTimers := s.fastTimers ++ [(t + 100, updated)] }
    else
      scheduleAutoSave { s with memory := some updated } t s.memory

/-- updateContacts at time t: same scheduling as addChatMessage. -/
def updateContacts (s : MemState) (t : Nat) (contacts : List Contact) : MemState :=
  match s.memory with
  | none => s
  | some prev =>
    let updated := { prev with contacts := contacts, lastUpdated := t }
    if jsTruthy prev.blobId = none then
      { s with memory := some updated, fastTimers := s.fastTimers ++ [(t + 100, updated)] }
    else
      scheduleAutoSave { s with memory := some updated } t s.memory

/-- updateAiSummary at time t: mutates the aggregate, then ALWAYS calls
scheduleAutoSave (outside the state updater) — this mutation has no
fast path for a pointer-less aggregate. -/
def updateAiSummary (s : MemState) (t : Nat) (summary : String) : MemState :=
  let s1 := { s with memory := s.memory.map (fun prev => { prev with aiSummary := summary, lastUpdated := t }) }
  scheduleAutoSave s1 t s.memory

/-- The debounce timeout fires: consume the timer; when changes are pending
and the closure saw a memory value, run the internal save on that captured
value at the scheduled fire time and clear the pending flag. -/
def fireDebounce (env : SaveEnv) (s : MemState) : MemState :=
  match s.debounceTimer with
  | none => s
  | some tm =>
    let s1 := { s with debounceTimer := none }
    if s1.pendingChanges then
      match tm.captured with
      | some m => { saveToWalrusInternal env s1 tm.fireAt m with pendingChanges := false }
      | none => s1
    else s1

/-- The oldest fast-path timeout fires: run the internal save on the
aggregate it carried. -/
def fireFast (env : SaveEnv) (s : MemState) : MemState :=
  match s.fastTimers with
  | [] => s
  | (t, m) :: rest => saveToWalrusInternal env { s with fastTimers := rest } t m

/-- saveToWalrus, the explicit manual save: stamps and uploads the live
aggregate WITHOUT consulting the backoff deadline; success resets the
failure tracking and stores the blobId; failure only surfaces a toast
(neither the counter nor the deadline moves). -/
def saveToWalrus (env : SaveEnv) (s : MemState) (now : Nat) : MemState :=
  match s.memory with
  | none => s
  | some m =>
    let payload := { m with lastUpdated := now }
    let n := s.uploadCount
    let s1 := { s with uploadCount := n + 1, uploads := s.uploads ++ [(now, payload)] }
    match env.uploadResult n with
    | some blobId =>
      { s1 with
        consecutiveFailures := 0
        backoffUntil := 0
        memory := s1.memory.map (fun prev => { prev with blobId := some blobId, lastUpdated := now }) }
    | none => s1

/-- Timed scheduler events for concrete runs. -/
inductive MemEvent where
  | addChat (t : Nat) (message : ChatMessage)
  | addActivity (t : Nat) (activity : ActivityLogEntry)
  | setSummary (t : Nat) (summary : String)
  | setContacts (t : Nat) (contacts : List Contact)
  | debounceFires
  | fastFires
  | manualSave (t : Nat)

def stepEvent (env : SaveEnv) (s : MemState) : MemEvent → MemState
  | .addChat t m => addChatMessage s t m
  | .addActivity t a => addActivityLog s t a
  | .setSummary t v => updateAiSummary s t v
  | .setContacts t cs => updateContacts s t cs
  | .debounceFires => fireDebounce env s
  | .fastFires => fireFast env s
  | .manualSave t => saveToWalrus env s t

def runEvents (env : SaveEnv) (s : MemState) (evs : List MemEvent) : MemState :=
  evs.foldl (stepEvent env) s

/-! ## Concrete fixtures used by witnesses and counterexamples -/

def exChatMsg1 : ChatMessage := ⟨.user, "hello", 0⟩

def exChatMsg2 : ChatMessage := ⟨.assistant, "hi there", 1000⟩

/-- An aggregate that has already been committed once (pointer present). -/
def exMemWithPointer : WalletMemory := ⟨"0xW", [], "", [], [], 0, some "b0"⟩

/-- A brand-new aggregate: never committed, no pointer. -/
def exMemNoPointer : WalletMemory := ⟨"0xW", [], "", [], [], 0, none⟩

/-- A store that accepts every upload. -/
def envUploadOk : SaveEnv := ⟨fun _ => some "b1"⟩

/-- A store that rejects every upload. -/
def envUploadFail : SaveEnv := ⟨fun _ => none⟩

/-- Extractor environment in which every generative call, against either
model variant, faults with model-not-found (404). -/
def env404 : ExtractEnv := ⟨true, fun _ _ => .notFound, fun _ => none⟩

/-- Extractor environment with a missing API key. -/
def envNoKey : ExtractEnv := ⟨false, fun _ _ => .fault, fun _ => none⟩

/-- Extractor environment in which every generative call faults with a
non-404, non-429 error. -/
def envFault : ExtractEnv := ⟨true, fun _ _ => .fault, fun _ => none⟩

/-- A parsed payload carrying the legacy destination field with the empty
(JS-falsy) string. -/
def legacyEmptyPayload : RawResponse :=
  { type := some "TRANSACTION",
    data := some { summary := some "s", action_type := some "TRANSFER",
                   params := some { to_address := some "" } } }

/-- A parsed payload carrying the legacy destination field with a truthy
address value. -/
def legacyGoodPayload : RawResponse :=
  { type := some "TRANSACTION",
    data := some { summary := some "s", action_type := some "TRANSFER",
                   params := some { to_address := some "0xAB12" } } }

/-! ## Helper lemmas -/

/-- Under the all-404 environment the extractor only ever recurses: no fuel
suffices for it to return. -/
theorem analyze_all404_aux (msg : String) :
    ∀ (fuel k : Nat) (m : String), analyzeTransactionIntent env404 msg m fuel k = none := by
  intro fuel
  induction fuel with
  | zero => intro k m; rfl
  | succ n ih =>
    intro k m
    unfold analyzeTransactionIntent
    simp only [env404, Bool.true_eq_false, if_false]
    split
    · exact ih (k + 1) "gemini-1.5-pro"
    · exact ih (k + 1) "gemini-2.5-flash"

/-- The safe fallback is always CHAT / NONE with the empty params object. -/
theorem getSafeFallbackResponse_shape (msg : String) :
    (getSafeFallbackResponse msg).type = .CHAT
      ∧ (getSafeFallbackResponse msg).data.action_type = .NONE
      ∧ (getSafeFallbackResponse msg).data.params = emptyParams :=
  ⟨rfl, rfl, rfl⟩

/-- Every value processText can produce is either the safe CHAT/NONE shape
or a successfully normalized-and-validated payload. -/
theorem finishParsed_cases (msg : String) (q : RawResponse) :
    ((finishParsed msg q).type = .CHAT
        ∧ (finishParsed msg q).data.action_type = .NONE
        ∧ (finishParsed msg q).data.params = emptyParams)
      ∨ validateResponse (normalizeParsed q) = some (finishParsed msg q) := by
  unfold finishParsed
  rcases hv : validateResponse (normalizeParsed q) with _ | v
  · exact Or.inl (getSafeFallbackResponse_shape msg)
  · exact Or.inr rfl

/-- Every value processText can produce is either the safe CHAT/NONE shape
or a successfully normalized-and-validated payload. -/
theorem processText_cases (env : ExtractEnv) (msg text : String) :
    ((processText env msg text).type = .CHAT
        ∧ (processText env msg text).data.action_type = .NONE
        ∧ (processText env msg text).data.params = emptyParams)
      ∨ ∃ p, validateResponse (normalizeParsed p) = some (processText env msg text) := by
  unfold processText
  split
  · exact Or.inl (getSafeFallbackResponse_shape msg)
  · split
    · exact Or.inl (getSafeFallbackResponse_shape msg)
    · rcases hp : env.parse (cleanJsonOutput text) with _ | p
      · rcases hq : env.parse (tryFixIncompleteJSON (cleanJsonOutput text)) with _ | q
        · exact Or.inl (getSafeFallbackResponse_shape msg)
        · rcases finishParsed_cases msg q with h | h
          · exact Or.inl h
          · exact Or.inr ⟨q, h⟩
      · rcases finishParsed_cases msg p with h | h
        · exact Or.inl h
        · exact Or.inr ⟨p, h⟩

/-! ## Claim C1 -/

/-- C1 counterexample: with the API configured but every generative call to
either model variant faulting with model-not-found, the extraction never
returns at all — the mutual flash/pro fallback recursion consumes any amount
of fuel — so the claim that every failure outcome yields a returned
CHAT/NONE response fails on this input. -/
theorem extract_double_notfound_never_returns :
    ¬ ∃ fuel : Nat,
      (analyzeTransactionIntent env404 "hello" "gemini-2.5-flash" fuel 0).isSome = true := by
  rintro ⟨fuel, h⟩
  rw [analyze_all404_aux "hello" fuel 0 "gemini-2.5-flash"] at h
  simp at h

/-- C1 (amended): except for the diverging case in which every call to both
model variants faults with model-not-found, analyzeTransactionIntent absorbs
every failure — missing API configuration, rate limit, any other call-level
fault, output that fails both parse attempts, and schema validation failure
— into a returned response, and every returned response is either a
successfully normalized-and-validated payload or the CHAT/NONE shape with
the params object present and empty.  The embedding is a total function:
no failure class escapes as an exception. -/
theorem extract_failures_absorbed :
    (∀ (env : ExtractEnv) (msg model : String) (fuel k : Nat) (r : TransactionResponse),
        analyzeTransactionIntent env msg model fuel k = some r →
        (r.type = .CHAT ∧ r.data.action_type = .NONE ∧ r.data.params = emptyParams)
          ∨ ∃ p, validateResponse (normalizeParsed p) = some r)
    ∧ (∀ (env : ExtractEnv) (msg model : String) (fuel k : Nat),
        env.apiConfigured = false →
        analyzeTransactionIntent env msg model (fuel + 1) k = some apiKeyMissingResponse)
    ∧ (∀ (env : ExtractEnv) (msg model : String) (fuel k : Nat),
        env.apiConfigured = true →
        env.outcome k (validModel model) = .rateLimited →
        analyzeTransactionIntent env msg model (fuel + 1) k = some rateLimitedResponse)
    ∧ (∀ (env : ExtractEnv) (msg model : String) (fuel k : Nat),
        env.apiConfigured = true →
        env.outcome k (validModel model) = .fault →
        analyzeTransactionIntent env msg model (fuel + 1) k = some busyResponse)
    ∧ (∀ (env : ExtractEnv) (msg model text : String) (fuel k : Nat),
        env.apiConfigured = true →
        env.outcome k (validModel model) = .success text →
        env.parse (cleanJsonOutput text) = none →
        env.parse (tryFixIncompleteJSON (cleanJsonOutput text)) = none →
        analyzeTransactionIntent env msg model (fuel + 1) k = some (getSafeFallbackResponse msg))
    ∧ (∀ (env : ExtractEnv) (msg model text : String) (fuel k : Nat) (p : RawResponse),
        env.apiConfigured = true →
        env.outcome k (validModel model) = .success text →
        10 ≤ (jsTrim text).length →
        10 ≤ (jsTrim (cleanJsonOutput text)).length →
        env.parse (cleanJsonOutput text) = some p →
        validateResponse (normalizeParsed p) = none →
        analyzeTransactionIntent env msg model (fuel + 1) k = some (getSafeFallbackResponse msg))
    ∧ ((apiKeyMissingResponse.type = .CHAT ∧ apiKeyMissingResponse.data.action_type = .NONE
          ∧ apiKeyMissingResponse.data.params = emptyParams)
        ∧ (rateLimitedResponse.type = .CHAT ∧ rateLimitedResponse.data.action_type = .NONE
          ∧ rateLimitedResponse.data.params = emptyParams)
        ∧ (busyResponse.type = .CHAT ∧ busyResponse.data.action_type = .NONE
          ∧ busyResponse.data.params = emptyParams)) := by
  refine ⟨?_, ?_, ?_, ?_, ?_, ?_, ⟨rfl, rfl, rfl⟩, ⟨rfl, rfl, rfl⟩, ⟨rfl, rfl, rfl⟩⟩
  · intro env msg model fuel
    have main : ∀ (fuel : Nat) (model : String) (k : Nat) (r : TransactionResponse),
        analyzeTransactionIntent env msg model fuel k = some r →
        (r.type = .CHAT ∧ r.data.action_type = .NONE ∧ r.data.params = emptyParams)
          ∨ ∃ p, validateResponse (normalizeParsed p) = some r := by
      intro fuel
      induction fuel with
      | zero => intro model k r h; exact Option.noConfusion h
      | succ n ih =>
        intro model k r h
        unfold analyzeTransactionIntent at h
        by_cases hc : env.apiConfigured = false
        · rw [if_pos hc] at h
          cases h
          exact Or.inl ⟨rfl, rfl, rfl⟩
        · rw [if_neg hc] at h
          rcases ho : env.outcome k (validModel model) with text | _ | _ | _ <;>
            simp only [ho] at h
          · cases h
            exact processText_cases env msg text
          · split at h
            · exact ih _ _ _ h
            · exact ih _ _ _ h
          · cases h
            exact Or.inl ⟨rfl, rfl, rfl⟩
          · cases h
            exact Or.inl ⟨rfl, rfl, rfl⟩
    exact main fuel model
  · intro env msg model fuel k hc
    unfold analyzeTransactionIntent
    rw [if_pos hc]
  · intro env msg model fuel k hc ho
    unfold analyzeTransactionIntent
    rw [if_neg (by simp [hc])]
    simp only [ho]
  · intro env msg model fuel k hc ho
    unfold analyzeTransactionIntent
    rw [if_neg (by simp [hc])]
    simp only [ho]
  · intro env msg model text fuel k hc ho hp hq
    unfold analyzeTransactionIntent
    rw [if_neg (by simp [hc])]
    simp only [ho]
    have hpt : processText env msg text = getSafeFallbackResponse msg := by
      unfold processText
      split
      · rfl
      · split
        · rfl
        · simp only [hp, hq]
    rw [hpt]
  · intro env msg model text fuel k p hc ho h1 h2 hp hv
    unfold analyzeTransactionIntent
    rw [if_neg (by simp [hc])]
    simp only [ho]
    have hpt : processText env msg text = getSafeFallbackResponse msg := by
      unfold processText
      rw [if_neg (by omega), if_neg (by omega)]
      simp only [hp]
      unfold finishParsed
      simp only [hv]
    rw [hpt]

/-- Witness for C1: the missing-API-configuration and call-level-fault
failure classes evaluated at concrete environments through the theorem. -/
theorem extract_failures_absorbed_witness :
    (analyzeTransactionIntent envNoKey "hi" "gemini-2.5-flash" 1 0 = some apiKeyMissingResponse)
    ∧ ((busyResponse.type = .CHAT ∧ busyResponse.data.action_type = .NONE
          ∧ busyResponse.data.params = emptyParams)
        ∨ ∃ p, validateResponse (normalizeParsed p) = some busyResponse) :=
  ⟨extract_failures_absorbed.2.1 envNoKey "hi" "gemini-2.5-flash" 0 0 rfl,
   extract_failures_absorbed.1 envFault "hi" "gemini-2.5-flash" 1 0 busyResponse rfl⟩

/-! ## Claim C5 -/

/-- C5: the source handles a 404 model-not-found fault by re-invoking itself
on the other model variant with no depth bound; when every call to both
variants keeps faulting with 404 the recursion never terminates — no fuel
bound suffices, from any starting model or call index — refuting the claimed
at-most-one-retry bound. -/
theorem extract_404_fallback_loops_forever :
    ∀ (fuel k : Nat) (m : String),
      analyzeTransactionIntent env404 "Send 10 SUI to Ali" m fuel k = none :=
  fun fuel k m => analyze_all404_aux "Send 10 SUI to Ali" fuel k m

/-! ## Scheduler helper lemmas -/

/-- Inside the backoff window the internal save is a no-op: no upload
attempt, no state change. -/
theorem saveToWalrusInternal_skip (env : SaveEnv) (s : MemState) (now : Nat) (m : WalletMemory)
    (h : now < s.backoffUntil) : saveToWalrusInternal env s now m = s := by
  unfold saveToWalrusInternal
  rw [if_pos h]

/-- Outside the backoff window the internal save performs exactly one upload
attempt, logging the stamped payload. -/
theorem saveToWalrusInternal_attempt (env : SaveEnv) (s : MemState) (now : Nat) (m : WalletMemory)
    (h : s.backoffUntil ≤ now) :
    (saveToWalrusInternal env s now m).uploadCount = s.uploadCount + 1
      ∧ (saveToWalrusInternal env s now m).uploads
          = s.uploads ++ [(now, { m with lastUpdated := now })] := by
  unfold saveToWalrusInternal
  rw [if_neg (by omega)]
  rcases hr : env.uploadResult s.uploadCount with _ | b <;> simp [hr]

/-! ## Claim C2 -/

/-- C2: two mutations 1000ms apart (inside the 2000ms debounce) on an
aggregate holding a pointer produce exactly one commit when the timer
elapses at t=3000 — but the committed snapshot is the closure value captured
from the render current when the surviving timer was armed, i.e. the state
after the FIRST mutation only: its chatHistory carries exChatMsg1 alone,
while the live aggregate at elapse time carries both messages.  The commit
does not equal the aggregate state at elapse time. -/
theorem debounce_commit_misses_last_mutation :
    ((runEvents envUploadOk { memory := some exMemWithPointer }
        [.addChat 0 exChatMsg1, .addChat 1000 exChatMsg2, .debounceFires]).uploads.map
          (fun u => (u.1, u.2.chatHistory)) = [(3000, [exChatMsg1])])
    ∧ ((runEvents envUploadOk { memory := some exMemWithPointer }
        [.addChat 0 exChatMsg1, .addChat 1000 exChatMsg2, .debounceFires]).memory.map
          (fun m => m.chatHistory) = some [exChatMsg1, exChatMsg2]) :=
  ⟨rfl, rfl⟩

/-! ## Claim C3 -/

/-- C3: the backoff protocol of the scheduled commit path. (1) Inside the
backoff window the internal save is a complete no-op (no network attempt,
no state change); (2) a debounce timer firing inside the window makes zero
upload attempts; (3) mutations during backoff still apply to the in-memory
aggregate and re-arm the debounce timer; (4) a debounce firing at or after
the deadline performs exactly one attempt; (5) a successful commit resets
the consecutive-failure counter and clears the deadline; (6) the third
consecutive failure opens a window of exactly 30s from the attempt time. -/
theorem backoff_gates_scheduled_commits :
    (∀ (env : SaveEnv) (s : MemState) (now : Nat) (m : WalletMemory),
        now < s.backoffUntil → saveToWalrusInternal env s now m = s)
    ∧ (∀ (env : SaveEnv) (s : MemState) (tm : DebounceTimer),
        s.debounceTimer = some tm → s.pendingChanges = true → tm.fireAt < s.backoffUntil →
        (fireDebounce env s).uploads = s.uploads
          ∧ (fireDebounce env s).uploadCount = s.uploadCount)
    ∧ (∀ (s : MemState) (t : Nat) (msg : ChatMessage) (prev : WalletMemory),
        s.memory = some prev → jsTruthy prev.blobId ≠ none →
        (addChatMessage s t msg).memory
            = some { prev with chatHistory := prev.chatHistory ++ [msg], lastUpdated := t }
          ∧ (addChatMessage s t msg).debounceTimer = some ⟨t + AUTO_SAVE_DELAY, some prev⟩)
    ∧ (∀ (env : SaveEnv) (s : MemState) (tm : DebounceTimer) (m : WalletMemory),
        s.debounceTimer = some tm → s.pendingChanges = true → tm.captured = some m →
        s.backoffUntil ≤ tm.fireAt →
        (fireDebounce env s).uploadCount = s.uploadCount + 1)
    ∧ (∀ (env : SaveEnv) (s : MemState) (now : Nat) (m : WalletMemory) (b : String),
        s.backoffUntil ≤ now → env.uploadResult s.uploadCount = some b →
        (saveToWalrusInternal env s now m).consecutiveFailures = 0
          ∧ (saveToWalrusInternal env s now m).backoffUntil = 0)
    ∧ (∀ (env : SaveEnv) (s : MemState) (now : Nat) (m : WalletMemory),
        s.backoffUntil ≤ now → s.consecutiveFailures = 2 →
        env.uploadResult s.uploadCount = none →
        (saveToWalrusInternal env s now m).backoffUntil = now + BACKOFF_DURATION_MS
          ∧ (saveToWalrusInternal env s now m).consecutiveFailures = 3) := by
  refine ⟨saveToWalrusInternal_skip, ?_, ?_, ?_, ?_, ?_⟩
  · intro env s tm htm hpend hlt
    unfold fireDebounce
    simp only [htm, hpend, if_true]
    rcases hc : tm.captured with _ | m <;> simp only [hc]
    · exact ⟨trivial, trivial⟩
    · rw [saveToWalrusInternal_skip env
        { s with debounceTimer := none, pendingChanges := true } tm.fireAt m hlt]
      exact ⟨rfl, rfl⟩
  · intro s t msg prev hmem hblob
    unfold addChatMessage
    simp only [hmem]
    rw [if_neg hblob]
    exact ⟨rfl, rfl⟩
  · intro env s tm m htm hpend hcap hge
    unfold fireDebounce
    simp only [htm, hpend, if_true, hcap]
    exact (saveToWalrusInternal_attempt env
      { s with debounceTimer := none, pendingChanges := true } tm.fireAt m hge).1
  · intro env s now m b hge hr
    unfold saveToWalrusInternal
    rw [if_neg (by omega)]
    simp only [hr]
    constructor <;> trivial
  · intro env s now m hge hf hr
    unfold saveToWalrusInternal
    rw [if_neg (by omega)]
    simp only [hr, hf]
    constructor
    · rw [if_pos (by simp [MAX_CONSECUTIVE_FAILURES])]
    · trivial

/-- Witness for C3: a concrete state 5ms inside a backoff window ending at
10ms — the internal save leaves the state untouched. -/
theorem backoff_gates_scheduled_commits_witness :
    saveToWalrusInternal envUploadOk
        { memory := some exMemWithPointer, backoffUntil := 10 } 5 exMemWithPointer
      = { memory := some exMemWithPointer, backoffUntil := 10 } :=
  backoff_gates_scheduled_commits.1 envUploadOk
    { memory := some exMemWithPointer, backoffUntil := 10 } 5 exMemWithPointer (by decide)

/-! ## Claim C10 -/

/-- C10: with the backoff deadline strictly in the future, the manual save
still performs an upload attempt (one network call, logging the stamped live
aggregate), while the scheduled-commit path saveToWalrusInternal skips the
attempt entirely in the same state. -/
theorem manual_save_ignores_backoff :
    ∀ (env : SaveEnv) (s : MemState) (t : Nat) (m prev : WalletMemory),
      t < s.backoffUntil → s.memory = some prev →
      (saveToWalrus env s t).uploadCount = s.uploadCount + 1
      ∧ (saveToWalrus env s t).uploads = s.uploads ++ [(t, { prev with lastUpdated := t })]
      ∧ saveToWalrusInternal env s t m = s := by
  intro env s t m prev hlt hmem
  refine ⟨?_, ?_, saveToWalrusInternal_skip env s t m hlt⟩ <;>
    · unfold saveToWalrus
      simp only [hmem]
      rcases hr : env.uploadResult s.uploadCount with _ | b <;> simp [hr]

/-- Witness for C10: concrete state with a future deadline — the manual save
uploads, the internal save does not. -/
theorem manual_save_ignores_backoff_witness :
    (saveToWalrus envUploadOk { memory := some exMemWithPointer, backoffUntil := 50 } 10).uploadCount
        = ({ memory := some exMemWithPointer, backoffUntil := 50 } : MemState).uploadCount + 1
      ∧ (saveToWalrus envUploadOk { memory := some exMemWithPointer, backoffUntil := 50 } 10).uploads
        = ({ memory := some exMemWithPointer, backoffUntil := 50 } : MemState).uploads
            ++ [(10, { exMemWithPointer with lastUpdated := 10 })]
      ∧ saveToWalrusInternal envUploadOk { memory := some exMemWithPointer, backoffUntil := 50 } 10
          exMemWithPointer
        = { memory := some exMemWithPointer, backoffUntil := 50 } :=
  manual_save_ignores_backoff envUploadOk
    { memory := some exMemWithPointer, backoffUntil := 50 } 10 exMemWithPointer exMemWithPointer
    (by decide) rfl

/-! ## Claim C4 -/

/-- C4: resolveRecipient on an 0x token returns the token as the address
with the name of the first contact matching the address case-insensitively
(null on a miss — not an error); on a name token it returns the matching
contact or the explicit unresolved result; and the TRANSFER dispatch treats
the unresolved result as a hard stop, building no transaction.  The
nonempty-name hypothesis reflects the address-book invariant the repository
enforces on contact creation (names are trimmed and rejected when empty). -/
theorem resolveRecipient_spec :
    (∀ (contacts : List Contact) (token : String),
        jsStartsWith token "0x" = true →
        (∀ c ∈ contacts, c.name ≠ "") →
        resolveRecipient contacts token
          = (token, (contacts.find? (fun c => jsToLower c.address = jsToLower token)).map Contact.name))
    ∧ (∀ (contacts : List Contact) (token : String) (c : Contact),
        jsStartsWith token "0x" = false →
        contacts.find? (fun c => jsToLower c.name = jsToLower token) = some c →
        resolveRecipient contacts token = (c.address, some c.name))
    ∧ (∀ (contacts : List Contact) (token : String),
        jsStartsWith token "0x" = false →
        contacts.find? (fun c => jsToLower c.name = jsToLower token) = none →
        resolveRecipient contacts token = ("", none))
    ∧ (∀ (contacts : List Contact) (params : TransactionParams) (a r : String),
        jsTruthy params.amount = some a → jsTruthy params.recipient = some r →
        (resolveRecipient contacts r).1 = "" →
        handleTransferIntent contacts params = .unresolved r) := by
  refine ⟨?_, ?_, ?_, ?_⟩
  · intro contacts token hpfx hnames
    unfold resolveRecipient
    rw [if_pos hpfx]
    rcases hf : contacts.find? (fun c => jsToLower c.address = jsToLower token) with _ | c <;>
      simp only [hf]
    · simp
    · have hc : c ∈ contacts := List.mem_of_find?_eq_some hf
      have hname : c.name ≠ "" := hnames c hc
      simp [jsTruthy, hname]
  · intro contacts token c hpfx hf
    unfold resolveRecipient
    rw [if_neg (by simp [hpfx]), hf]
  · intro contacts token hpfx hf
    unfold resolveRecipient
    rw [if_neg (by simp [hpfx]), hf]
  · intro contacts params a r ha hr hres
    unfold handleTransferIntent
    simp only [ha, hr]
    rw [if_pos hres]

/-- Witness for C4: the spec examples — an unknown address reverse-looked-up
to a null name, the contact Ali forward-resolved, the unknown Bob hard stop,
and the aborted TRANSFER construction. -/
theorem resolveRecipient_spec_witness :
    (resolveRecipient [⟨"Ali", "0xAB12"⟩] "0xFF" = ("0xFF", none))
    ∧ (resolveRecipient [⟨"Ali", "0xAB12"⟩] "ali" = ("0xAB12", some "Ali"))
    ∧ (resolveRecipient [⟨"Ali", "0xAB12"⟩] "Bob" = ("", none))
    ∧ (handleTransferIntent [⟨"Ali", "0xAB12"⟩] { amount := some "10", recipient := some "Bob" }
        = .unresolved "Bob") :=
  ⟨by
      have h := resolveRecipient_spec.1 [⟨"Ali", "0xAB12"⟩] "0xFF" rfl
        (by intro c hc; simp at hc; subst hc; decide)
      simpa using h,
   resolveRecipient_spec.2.1 [⟨"Ali", "0xAB12"⟩] "ali" ⟨"Ali", "0xAB12"⟩ rfl rfl,
   resolveRecipient_spec.2.2.1 [⟨"Ali", "0xAB12"⟩] "Bob" rfl rfl,
   resolveRecipient_spec.2.2.2 [⟨"Ali", "0xAB12"⟩]
     { amount := some "10", recipient := some "Bob" } "10" "Bob" rfl rfl (by decide)⟩

/-- The final quote-closing step of tryFixIncompleteJSON, over an arbitrary
already-brace-balanced text, equals the amended claim-side closeOddQuote. -/
theorem quoteStep_eq (e : String) :
    (if countChar e '"' % 2 ≠ 0 then
        (if ¬ jsEndsWith e "\"" then e ++ "\"" else e)
      else e)
      = closeOddQuote e := by
  unfold closeOddQuote
  by_cases hq : countChar e '"' % 2 = 0
  · rw [if_neg (by omega), if_neg (by rintro ⟨h1, -⟩; omega)]
  · rw [if_pos (by omega)]
    by_cases he : jsEndsWith e "\"" = true
    · rw [if_neg (by simp [he]), if_neg (by rintro ⟨-, h2⟩; simp [he] at h2)]
    · rw [if_pos (by simp [he]), if_pos ⟨by omega, by simp [he]⟩]

/-! ## Claim C6 -/

/-- C6 counterexample: on a text whose quote count is odd but which already
ends with a double quote, the repair appends nothing — refuting the claim
that an odd total quote count always makes it append one closing quote. -/
theorem repair_skips_quote_append_when_ending_in_quote :
    countChar "\x7b\"a\": 1\x7d\"" '"' % 2 = 1
      ∧ tryFixIncompleteJSON "\x7b\"a\": 1\x7d\"" = "\x7b\"a\": 1\x7d\"" :=
  ⟨by decide, rfl⟩

/-- C6 (amended): the sanitizer slices the defenced, trimmed text to exactly
the span from the first opening brace to the last closing brace whenever
both exist in order; and the structural repair equals the claim-side
description — balance the brace surplus after trimming one dangling
comma/quote, then append one closing quote when the quote count is odd
UNLESS the text already ends with a quote. -/
theorem sanitizer_and_repair_spec :
    (∀ (s : String) (i j : Nat),
        firstIdxOf? (preSliceText s).toList '{' = some i →
        lastIdxOf? (preSliceText s).toList '}' = some j →
        i < j →
        cleanJsonOutput s = String.mk (((preSliceText s).toList.drop i).take (j + 1 - i)))
    ∧ (∀ s : String, tryFixIncompleteJSON s = closeOddQuote (balanceBraces (jsTrim s))) := by
  constructor
  · intro s i j h1 h2 hij
    unfold cleanJsonOutput
    rw [h1, h2]
    simp only [if_pos hij]
  · intro s
    exact quoteStep_eq (balanceBraces (jsTrim s))

/-- Witness for C6: concrete slicing — prose around a braced span is cut to
exactly that span. -/
theorem sanitizer_and_repair_spec_witness :
    firstIdxOf? (preSliceText "x\x7ba\x7dy").toList '{' = some 1
      ∧ lastIdxOf? (preSliceText "x\x7ba\x7dy").toList '}' = some 3
      ∧ cleanJsonOutput "x\x7ba\x7dy" = "\x7ba\x7d" :=
  ⟨rfl, rfl, sanitizer_and_repair_spec.1 "x\x7ba\x7dy" 1 3 rfl rfl (by omega)⟩

/-! ## Claim C7 -/

/-- Shared helper: when the parsed payload carries a truthy (non-empty)
legacy to_address, normalization rewrites it into the canonical recipient
field and deletes the legacy key. -/
theorem normalizeParsed_renames (r : RawResponse) (d : RawData) (ps : RawParams) (s : String)
    (hd : r.data = some d) (hps : d.params = some ps) (hts : ps.to_address = some s)
    (hs : s ≠ "") :
    normalizeParsed r
      = { r with data := some { d with
          params := some { ps with recipient := some s, to_address := none } } } := by
  unfold normalizeParsed
  simp only [hd, hps, hts]
  rw [if_pos hs]
  simp

/-- Shared helper: the fields of a validated response come from the raw
payload; in particular the recipient is carried over unchanged. -/
theorem validateResponse_recipient (r : RawResponse) (v : TransactionResponse)
    (hv : validateResponse r = some v) :
    ∃ d ps, r.data = some d ∧ d.params = some ps ∧ v.data.params.recipient = ps.recipient := by
  obtain ⟨rtype, rdata⟩ := r
  rcases rtype with _ | ty
  · exact absurd hv (by simp [validateResponse])
  · rcases rdata with _ | d
    · exact absurd hv (by simp [validateResponse])
    · obtain ⟨ds, da, dp⟩ := d
      rcases hr : parseRType ty with _ | rty <;>
        rcases ds with _ | summ <;>
        rcases da with _ | act <;>
        rcases dp with _ | ps <;>
        (try simp only [validateResponse, hr] at hv) <;>
        (try exact Option.noConfusion hv)
      rcases ha : parseActionType act with _ | a <;> simp only [ha] at hv
      · exact Option.noConfusion hv
      · cases hv
        exact ⟨_, ps, rfl, rfl, rfl⟩

/-- C7 counterexample: a payload whose legacy destination field holds the
empty string — it carries the legacy field, yet normalization leaves the
payload untouched (the source gates the rename on JS truthiness), and the
validated result has no populated canonical recipient. -/
theorem legacy_empty_destination_not_renamed :
    legacyEmptyPayload.data.map (fun d => d.params.map (fun ps => ps.to_address))
        = some (some (some ""))
      ∧ normalizeParsed legacyEmptyPayload = legacyEmptyPayload
      ∧ (validateResponse (normalizeParsed legacyEmptyPayload)).map
          (fun v => v.data.params.recipient) = some none :=
  ⟨rfl, rfl, rfl⟩

/-- C7 (amended): for every parsed payload whose legacy destination field
holds a truthy (non-empty) string, normalization renames it to the canonical
recipient field and deletes the legacy key before validation; a null/absent
params under a present data is coerced to the empty object; and consequently
a successfully validated result carries the canonical field populated (the
legacy field is absent from the validated shape, which strips unknown
keys). -/
theorem normalizer_legacy_alias_spec :
    (∀ (r : RawResponse) (d : RawData) (ps : RawParams) (s : String),
        r.data = some d → d.params = some ps → ps.to_address = some s → s ≠ "" →
        normalizeParsed r
          = { r with data := some { d with
              params := some { ps with recipient := some s, to_address := none } } })
    ∧ (∀ (r : RawResponse) (d : RawData),
        r.data = some d → d.params = none →
        normalizeParsed r = { r with data := some { d with params := some {} } })
    ∧ (∀ (r : RawResponse) (d : RawData) (ps : RawParams) (s : String) (v : TransactionResponse),
        r.data = some d → d.params = some ps → ps.to_address = some s → s ≠ "" →
        validateResponse (normalizeParsed r) = some v →
        v.data.params.recipient = some s) := by
  refine ⟨normalizeParsed_renames, ?_, ?_⟩
  · intro r d hd hp
    unfold normalizeParsed
    simp only [hd, hp]
    simp
  · intro r d ps s v hd hps hts hs hv
    rw [normalizeParsed_renames r d ps s hd hps hts hs] at hv
    obtain ⟨d', ps', hd', hps', hrec⟩ := validateResponse_recipient _ v hv
    simp only at hd'
    cases hd'
    simp only at hps'
    cases hps'
    simpa using hrec

/-- Witness for C7: a payload with a truthy legacy field, renamed and
validated through the theorem. -/
theorem normalizer_legacy_alias_spec_witness :
    normalizeParsed legacyGoodPayload
      = { type := some "TRANSACTION",
          data := some { summary := some "s", action_type := some "TRANSFER",
                         params := some { recipient := some "0xAB12", to_address := none } } } :=
  normalizer_legacy_alias_spec.1 legacyGoodPayload
    { summary := some "s", action_type := some "TRANSFER",
      params := some { to_address := some "0xAB12" } }
    { to_address := some "0xAB12" } "0xAB12" rfl rfl rfl (by decide)

/-! ## Claim C8 -/

/-- C8 counterexample: on a brand-new aggregate with no pointer, the very
first updateAiSummary mutation schedules NO short-delay fast-path commit —
only the ordinary 2000ms debounce timer is armed. -/
theorem updateAiSummary_lacks_fast_path :
    (updateAiSummary { memory := some exMemNoPointer } 0 "likes sushi").fastTimers = []
      ∧ (updateAiSummary { memory := some exMemNoPointer } 0 "likes sushi").debounceTimer
        = some ⟨AUTO_SAVE_DELAY, some exMemNoPointer⟩ :=
  ⟨rfl, rfl⟩

/-- C8 (amended): of the four mutation operations, addChatMessage,
addActivityLog and updateContacts schedule the ~100ms fast-path commit
(carrying the freshly updated aggregate) when the aggregate has no truthy
pointer yet; updateAiSummary does not — it always arms the 2000ms debounce
timer, even on a pointer-less aggregate. -/
theorem fast_path_mutation_spec :
    (∀ (s : MemState) (t : Nat) (msg : ChatMessage) (prev : WalletMemory),
        s.memory = some prev → jsTruthy prev.blobId = none →
        addChatMessage s t msg
          = { s with
              memory := some { prev with chatHistory := prev.chatHistory ++ [msg], lastUpdated := t },
              fastTimers := s.fastTimers
                ++ [(t + 100, { prev with chatHistory := prev.chatHistory ++ [msg], lastUpdated := t })] })
    ∧ (∀ (s : MemState) (t : Nat) (a : ActivityLogEntry) (prev : WalletMemory),
        s.memory = some prev → jsTruthy prev.blobId = none →
        addActivityLog s t a
          = { s with
              memory := some { prev with activityLogs := prev.activityLogs ++ [a], lastUpdated := t },
              fastTimers := s.fastTimers
                ++ [(t + 100, { prev with activityLogs := prev.activityLogs ++ [a], lastUpdated := t })] })
    ∧ (∀ (s : MemState) (t : Nat) (cs : List Contact) (prev : WalletMemory),
        s.memory = some prev → jsTruthy prev.blobId = none →
        updateContacts s t cs
          = { s with
              memory := some { prev with contacts := cs, lastUpdated := t },
              fastTimers := s.fastTimers
                ++ [(t + 100, { prev with contacts := cs, lastUpdated := t })] })
    ∧ (∀ (s : MemState) (t : Nat) (v : String) (prev : WalletMemory),
        s.memory = some prev →
        updateAiSummary s t v
          = { s with
              memory := some { prev with aiSummary := v, lastUpdated := t },
              pendingChanges := true,
              debounceTimer := some ⟨t + AUTO_SAVE_DELAY, some prev⟩ }) := by
  refine ⟨?_, ?_, ?_, ?_⟩
  · intro s t msg prev hmem hblob
    unfold addChatMessage
    simp only [hmem]
    rw [if_pos hblob]
  · intro s t a prev hmem hblob
    unfold addActivityLog
    simp only [hmem]
    rw [if_pos hblob]
  · intro s t cs prev hmem hblob
    unfold updateContacts
    simp only [hmem]
    rw [if_pos hblob]
  · intro s t v prev hmem
    unfold updateAiSummary scheduleAutoSave
    simp only [hmem]
    rfl

/-- Witness for C8: the first chat message on a pointer-less aggregate arms
the 100ms fast-path timeout with the updated aggregate. -/
theorem fast_path_mutation_spec_witness :
    addChatMessage { memory := some exMemNoPointer } 0 exChatMsg1
      = { memory := some { exMemNoPointer with chatHistory := [exChatMsg1], lastUpdated := 0 },
          fastTimers := [(100, { exMemNoPointer with chatHistory := [exChatMsg1], lastUpdated := 0 })] } :=
  fast_path_mutation_spec.1 { memory := some exMemNoPointer } 0 exChatMsg1 exMemNoPointer rfl rfl

/-! ## Claim C9 -/

/-- C9: the gateway put returns a pointer on success, accepting both the
newly-stored and the already-present response shapes, and returns the null
failure value — as a total function, never raising — on timeout/fault, on a
non-ok response, and on an unreadable body; the gateway get maps 404 to the
absent outcome (null), and the loader falls back to a fresh empty aggregate
on an absent or mismatched snapshot. -/
theorem gateway_put_get_spec :
    (∀ (status : Nat) (res : WalrusUploadResponse) (b : String),
        httpOk status = true → jsTruthy res.newlyCreatedBlobId = some b →
        uploadToWalrus (.response status (some res)) = some b)
    ∧ (∀ (status : Nat) (res : WalrusUploadResponse) (b : String),
        httpOk status = true → jsTruthy res.newlyCreatedBlobId = none →
        jsTruthy res.alreadyCertifiedBlobId = some b →
        uploadToWalrus (.response status (some res)) = some b)
    ∧ (uploadToWalrus .fault = none)
    ∧ (∀ (status : Nat) (body : Option WalrusUploadResponse),
        httpOk status = false → uploadToWalrus (.response status body) = none)
    ∧ (∀ status : Nat, httpOk status = true →
        uploadToWalrus (.response status none) = none)
    ∧ (∀ body : Option WalletMemory, downloadFromWalrus (.response 404 body) = none)
    ∧ (downloadFromWalrus .fault = none)
    ∧ (∀ (address bid : String) (fetch : String → Option WalletMemory) (now : Nat),
        bid ≠ "" → fetch bid = none →
        loadMemoryModel address (some bid) fetch now = createEmptyMemory address now)
    ∧ (∀ (address bid : String) (fetch : String → Option WalletMemory) (now : Nat)
          (wm : WalletMemory),
        bid ≠ "" → fetch bid = some wm → wm.walletAddress = address →
        loadMemoryModel address (some bid) fetch now = { wm with blobId := some bid }) := by
  refine ⟨?_, ?_, rfl, ?_, ?_, fun _ => rfl, rfl, ?_, ?_⟩
  · intro status res b hok hb
    simp only [uploadToWalrus]
    rw [if_neg (by simp [hok]), hb]
  · intro status res b hok hnb hb
    simp only [uploadToWalrus]
    rw [if_neg (by simp [hok]), hnb, hb]
  · intro status body hok
    simp only [uploadToWalrus]
    rw [if_pos (by simp [hok])]
  · intro status hok
    simp only [uploadToWalrus]
    rw [if_neg (by simp [hok])]
  · intro address bid fetch now hbid hf
    unfold loadMemoryModel
    simp only [jsTruthy]
    rw [if_neg hbid]
    simp only [hf]
  · intro address bid fetch now wm hbid hf haddr
    unfold loadMemoryModel
    simp only [jsTruthy]
    rw [if_neg hbid]
    simp only [hf]
    rw [if_pos haddr]

/-- Witness for C9: an ok response in the already-present shape yields its
pointer through the theorem. -/
theorem gateway_put_get_spec_witness :
    uploadToWalrus (.response 200 (some { alreadyCertifiedBlobId := some "blobC" })) = some "blobC" :=
  gateway_put_get_spec.2.1 200 { alreadyCertifiedBlobId := some "blobC" } "blobC" rfl rfl rfl

end VAQI
